import Mathlib

/-!
Verification development for the Walking Buddies challenge/points engine
(src/main.py). The engine is shallowly embedded:

* Calendar dates are proleptic-Gregorian ordinals (Int), exactly the value
  of the Python call date.toordinal(): ordinal 1 is 0001-01-01, a Monday, so
  date.weekday() is (ordinal - 1) % 7 with Monday = 0.
* Python dicts keyed by ISO date strings (steps_log, minutes_log,
  distance_miles_log) become insertion-ordered association lists keyed by
  the ordinal of the date; dict.get(k, 0) and dict[k] = v are embedded verbatim.
  ISO strings are in bijection with ordinals, so keying is faithful.
* The period-key strings produced by _period_key are embedded as the
  inductive PeriodKey; each constructor corresponds to one of the distinct
  string formats (the formats can never collide as strings, and within one
  format the string is in bijection with the constructor arguments:
  an ISO year-week pair corresponds to the ordinal of its Monday).
* Python float miles become rationals; session_state dicts of users and
  badges, which every engine read accesses through defaulting helpers
  (ensure_user / setdefault), become total functions; user_challenges,
  whose membership is tested by the code, keeps an Option range.
* The clock (date.today()) is passed explicitly as a parameter.
* Streamlit UI calls (st.toast, st.progress, ...) and the reminder timers
  are presentation-only and are not part of the engine state.
-/

namespace WalkingBuddies

/-! ## Calendar arithmetic -/

/-- Weekday of an ordinal day, Monday = 0 .. Sunday = 6; matches Python
date.weekday() because ordinal 1 (0001-01-01) is a Monday. -/
def weekdayOf (d : Int) : Int := (d - 1) % 7

/-- Monday of the ISO week containing d: this ordinal is in bijection with
the pair returned by d.isocalendar()[:2], hence with the weekly period-key
string.  It equals date.fromisocalendar(y, w, 1) in the source. -/
def isoMonday (d : Int) : Int := d - weekdayOf d

/-- Saturday of the current or most recently started weekend, as computed
by the weekend branches of _period_key and _dates_for_period:
today + (5 - weekday) when weekday <= 5, else today - (weekday - 5). -/
def saturdayOf (today : Int) : Int :=
  if weekdayOf today ≤ 5 then today + (5 - weekdayOf today)
  else today - (weekdayOf today - 5)

/-- Gregorian (year, month, day) of an ordinal; the standard civil-from-days
algorithm shifted to the toordinal() epoch.  Used only by the monthly
period key and month date range (today.year, today.month). -/
def civilFromDays (o : Int) : Int × Int × Int :=
  let z := o + 305
  let era := z / 146097
  let doe := z - era * 146097
  let yoe := (doe - doe / 1460 + doe / 36524 - doe / 146096) / 365
  let y0 := yoe + era * 400
  let doy := doe - (365 * yoe + yoe / 4 - yoe / 100)
  let mp := (5 * doy + 2) / 153
  let dd := doy - (153 * mp + 2) / 5 + 1
  let m := mp + (if mp < 10 then 3 else -9)
  (y0 + (if m ≤ 2 then 1 else 0), m, dd)

/-- Ordinal of a Gregorian (year, month, day); inverse of civilFromDays.
Used to embed date(y, m, 1) in the monthly branch of _dates_for_period. -/
def daysFromCivil (y m d : Int) : Int :=
  let y1 := y - (if m ≤ 2 then 1 else 0)
  let era := y1 / 400
  let yoe := y1 - era * 400
  let doy := (153 * (m + (if 2 < m then -3 else 9)) + 2) / 5 + d - 1
  let doe := yoe * 365 + yoe / 4 - yoe / 100 + doy
  era * 146097 + doe - 305

/-- List of n consecutive ordinals starting at start. -/
def dateRange (start : Int) (n : Nat) : List Int :=
  (List.range n).map (fun i => start + (i : Int))

/-! ## Python dict keyed by ISO date strings -/

/-- Insertion-ordered association list embedding a Python dict keyed by an
ISO date string (stored as the ordinal of the date). -/
abbrev DayMap (β : Type) := List (Int × β)

/-- Embeds dict.get(key, default). -/
def dayGet {β : Type} (m : DayMap β) (d : Int) (dflt : β) : β :=
  match m.find? (fun p => p.1 == d) with
  | some p => p.2
  | none => dflt

/-- Embeds dict[key] = v: replaces the value in place when the key exists
(Python dicts keep insertion order), otherwise appends the new pair. -/
def daySet {β : Type} (m : DayMap β) (d : Int) (v : β) : DayMap β :=
  if m.any (fun p => p.1 == d) then
    m.map (fun p => if p.1 == d then (d, v) else p)
  else m ++ [(d, v)]

/-- Embeds dict.values(). -/
def dayValues {β : Type} (m : DayMap β) : List β := m.map (fun p => p.2)

/-! ## Streak computation (calc_streak, main.py lines 174-185) -/

/-- Loop body of calc_streak: for d in dates_sorted: if d == today - streak
then streak += 1, elif d < today - streak then break; returns streak. -/
def streakLoop (today : Int) : List Int → Nat → Nat
  | [], streak => streak
  | d :: ds, streak =>
    if d = today - (streak : Int) then streakLoop today ds (streak + 1)
    else if d < today - (streak : Int) then streak
    else streakLoop today ds streak

/-- calc_streak(dates): 0 when empty, otherwise run the loop over the
distinct dates sorted in descending order (sorted(set(...), reverse=True)). -/
def calc_streak (today : Int) (dates : List Int) : Nat :=
  if dates = [] then 0
  else streakLoop today (List.insertionSort (· ≥ ·) dates.dedup) 0

/-! ## Point rules (POINT_RULES, main.py lines 121-128) -/

structure PointRules where
  base_per_minute : Int
  streak_7 : Int
  streak_30 : Int
  group_walk_bonus : Int
  invite_bonus : Int
  photo_share : Int

def POINT_RULES : PointRules :=
  { base_per_minute := 1, streak_7 := 10, streak_30 := 50
    group_walk_bonus := 20, invite_bonus := 50, photo_share := 5 }

/-! ## Data model -/

/-- Per-user record created by ensure_user (main.py lines 140-172). -/
structure User where
  name : String
  points : Int
  team : Option String
  city : String
  available_times : String
  buddies : Finset String
  walk_dates : List Int
  steps_log : DayMap Int
  minutes_log : DayMap Int
  distance_miles_log : DayMap ℚ
  photos_this_week : Int
  invites_this_month : Int
  routes_completed_month : Finset String
deriving DecidableEq

/-- Default user record inserted by ensure_user for an unseen user id. -/
def defaultUser (uid : String) : User :=
  { name := uid, points := 0, team := none, city := ""
    available_times := "Mornings", buddies := ∅, walk_dates := []
    steps_log := [], minutes_log := [], distance_miles_log := []
    photos_this_week := 0, invites_this_month := 0
    routes_completed_month := ∅ }

/-- Team record: captain plus member set (the unused "battles" list in the
team dict is never read or written by the engine and is omitted). -/
structure Team where
  captain : String
  members : Finset String
deriving DecidableEq

/-- Canonical period key produced by _period_key; each constructor stands
for one of the five mutually non-colliding string formats. -/
inductive PeriodKey where
  | daily (day : Int)
  | weekly (monday : Int)
  | weekend (saturday : Int)
  | monthly (year month : Int)
  | alltime
deriving DecidableEq

/-- Per-(user, challenge) progress record (main.py line 327). -/
structure UserChallenge where
  joined : Bool
  progress : List (String × ℚ)
  completed : Bool
  last_reset : Option PeriodKey
deriving DecidableEq

/-- Record created on first touch: joined False, progress empty dict,
completed False, last_reset None. -/
def newUserChallenge : UserChallenge :=
  { joined := false, progress := [], completed := false, last_reset := none }

/-- Challenge definition: the flattening of the catalog / custom-challenge
dicts.  Fields that a given kind of challenge does not carry in the source
dict are never read on the code path of that kind; they are set to zero-like
defaults when such a dict is embedded. -/
structure Challenge where
  id : String
  name : String
  desc : String
  ctype : String
  period : String
  target : Int
  target_miles : ℚ
  target_count : Int
  reward_points : Int
  custom : Bool
  metric : String
  target_value : ℚ
deriving DecidableEq

/-- Route record appended by add_route (main.py line 584). -/
structure Route where
  user_id : String
  name : String
  distance_km : ℚ
  notes : String
  created_at : Int
deriving DecidableEq

/-- Team battle record created by create_team_battle (main.py line 557);
the metric field is always the string "distance". -/
structure Battle where
  team_a : String
  team_b : String
  start_date : Int
  end_date : Int
  metric : String
  reward_points : Int
  winner : Option String
deriving DecidableEq

/-- Session state of the engine.  Invites, messages, reminders and the
reward catalog are never read by any of the operations modelled here. -/
structure AppState where
  users : String → User
  teams : String → Option Team
  user_challenges : String → String → Option UserChallenge
  routes : List Route
  team_battles : List Battle
  challenge_catalog : List Challenge
  custom_challenges : List Challenge
  badges : String → Finset String

/-- Built-in challenge catalog (main.py lines 34-98). -/
def defaultCatalog : List Challenge :=
  [ { id := "daily_5000", name := "Daily Step Goal"
      desc := "Hit 5,000 steps today for bonus points"
      ctype := "daily_steps", period := "daily", target := 5000
      target_miles := 0, target_count := 0, reward_points := 50
      custom := false, metric := "", target_value := 0 },
    { id := "weekend_walkathon", name := "Weekend Walkathon"
      desc := "Walk 10 miles over the weekend"
      ctype := "distance_period", period := "weekend", target := 0
      target_miles := 10, target_count := 0, reward_points := 150
      custom := false, metric := "", target_value := 0 },
    { id := "photo_share", name := "Photo Challenge"
      desc := "Share a scenic walk photo this week"
      ctype := "boolean_weekly", period := "weekly", target := 1
      target_miles := 0, target_count := 0, reward_points := 20
      custom := false, metric := "", target_value := 0 },
    { id := "invite_3", name := "Invite Challenge"
      desc := "Invite 3 friends into the app this month"
      ctype := "count_monthly", period := "monthly", target := 3
      target_miles := 0, target_count := 0, reward_points := 100
      custom := false, metric := "", target_value := 0 },
    { id := "team_100_miles", name := "Team Mileage Goal"
      desc := "Teams aim for 100 miles combined in a week"
      ctype := "team_distance_weekly", period := "weekly", target := 0
      target_miles := 100, target_count := 0, reward_points := 300
      custom := false, metric := "", target_value := 0 },
    { id := "relay_pass_baton", name := "Relay Challenge"
      desc := "Each member walks 2 miles this week to pass the baton"
      ctype := "team_each_member_distance_weekly", period := "weekly"
      target := 0, target_miles := 2, target_count := 0
      reward_points := 200, custom := false, metric := "", target_value := 0 },
    { id := "city_explorer", name := "City Explorer"
      desc := "Complete walks in 5 different neighborhoods this month"
      ctype := "distinct_routes_monthly", period := "monthly", target := 0
      target_miles := 0, target_count := 5, reward_points := 120
      custom := false, metric := "", target_value := 0 } ]

/-! ## Period key and period date ranges (main.py lines 301-359) -/

/-- Embeds _period_key(ch): dispatch on ch.get("period"); any unrecognized
tag falls through to the constant "alltime" key. -/
def periodKeyFor (p : String) (today : Int) : PeriodKey :=
  if p = "daily" then .daily today
  else if p = "weekly" then .weekly (isoMonday today)
  else if p = "weekend" then .weekend (saturdayOf today)
  else if p = "monthly" then
    let c := civilFromDays today
    .monthly c.1 c.2.1
  else .alltime

/-- Embeds _dates_for_period(period): the explicit list of calendar dates
making up the current period instance; unknown periods yield [today]. -/
def _dates_for_period (period : String) (today : Int) : List Int :=
  if period = "daily" then [today]
  else if period = "weekly" then dateRange (isoMonday today) 7
  else if period = "monthly" then
    let c := civilFromDays today
    let start := daysFromCivil c.1 c.2.1 1
    let nxt := daysFromCivil (c.1 + c.2.1 / 12) (c.2.1 % 12 + 1) 1
    dateRange start (nxt - start).toNat
  else if period = "weekend" then [saturdayOf today, saturdayOf today + 1]
  else [today]

/-! ## State helpers -/

/-- Embeds get_challenge_by_id: first matching id in the catalog, then in
the custom challenges, else None. -/
def get_challenge_by_id (s : AppState) (cid : String) : Option Challenge :=
  match s.challenge_catalog.find? (fun c => c.id == cid) with
  | some c => some c
  | none => s.custom_challenges.find? (fun c => c.id == cid)

/-- Store a (user, challenge) progress record. -/
def setUC (s : AppState) (uid cid : String) (uc : UserChallenge) : AppState :=
  { s with user_challenges := Function.update s.user_challenges uid (Function.update (s.user_challenges uid) cid (some uc)) }

/-- Embeds add_points(user_id, pts): point balance increases by pts. -/
def add_points (s : AppState) (uid : String) (pts : Int) : AppState :=
  let u := s.users uid
  let u1 : User := { u with points := u.points + pts }
  { s with users := Function.update s.users uid u1 }

/-- Period rollover applied to a stored record: progress cleared, completed
cleared, last_reset stamped with the current key (main.py lines 332-334). -/
def resetUC (uc : UserChallenge) (key : PeriodKey) : UserChallenge :=
  { uc with progress := [], completed := false, last_reset := some key }

/-- Embeds _ensure_user_challenge (main.py lines 324-335): materialize the
record, then if the challenge is found and its current period key differs
from last_reset, clear progress, clear completed and stamp last_reset. -/
def _ensure_user_challenge (today : Int) (s : AppState) (uid cid : String) :
    UserChallenge × AppState :=
  let uc0 := (s.user_challenges uid cid).getD newUserChallenge
  match get_challenge_by_id s cid with
  | some ch =>
    let key := periodKeyFor ch.period today
    if uc0.last_reset ≠ some key then
      (resetUC uc0 key, setUC s uid cid (resetUC uc0 key))
    else (uc0, setUC s uid cid uc0)
  | none => (uc0, setUC s uid cid uc0)

/-! ## Period sums over the activity ledger (main.py lines 361-372) -/

def _sum_steps_for_period (u : User) (period : String) (today : Int) : Int :=
  ((_dates_for_period period today).map (fun d => dayGet u.steps_log d 0)).sum

def _sum_minutes_for_period (u : User) (period : String) (today : Int) : Int :=
  ((_dates_for_period period today).map (fun d => dayGet u.minutes_log d 0)).sum

def _sum_miles_for_period (u : User) (period : String) (today : Int) : ℚ :=
  ((_dates_for_period period today).map (fun d => dayGet u.distance_miles_log d 0)).sum

def _count_walks_for_period (u : User) (period : String) (today : Int) : Nat :=
  (u.walk_dates.filter (fun dt => decide (dt ∈ _dates_for_period period today))).length

/-- Miles a user logged across the current ISO week (Mon-Sun); the per-member
loop of the relay branch (main.py lines 421-424). -/
def weekly_miles (s : AppState) (today : Int) (uid : String) : ℚ :=
  ((dateRange (isoMonday today) 7).map
    (fun di => dayGet (s.users uid).distance_miles_log di 0)).sum

/-! ## Challenge evaluation (complete_challenge_if_eligible, lines 374-446) -/

/-- Mark the stored record completed and award the points, the shared tail
of every successful branch: uc["completed"] = True; add_points(...). -/
def markComplete (s : AppState) (uid cid : String) (uc : UserChallenge)
    (pts : Int) : AppState :=
  add_points (setUC s uid cid { uc with completed := true }) uid pts

/-- The built-in elif chain (main.py lines 381-431).  A branch whose
predicate holds returns the completed-and-awarded state; a failing or
unmatched branch falls through (None), reaching the custom check. -/
def team_weekly_total (s : AppState) (today : Int) (team : Team) : ℚ :=
  ((dateRange (isoMonday today) 7).map
    (fun di => Finset.sum team.members
      (fun m => dayGet (s.users m).distance_miles_log di 0))).sum

def evalBuiltin (today : Int) (s : AppState) (uid : String) (ch : Challenge)
    (uc : UserChallenge) : Option AppState :=
  if ch.id = "daily_5000" then
    if ch.target ≤ dayGet (s.users uid).steps_log today 0 then
      some (markComplete s uid ch.id uc ch.reward_points)
    else none
  else if ch.id = "weekend_walkathon" then
    if ch.target_miles ≤
        dayGet (s.users uid).distance_miles_log (saturdayOf today) 0
          + dayGet (s.users uid).distance_miles_log (saturdayOf today + 1) 0 then
      some (markComplete s uid ch.id uc ch.reward_points)
    else none
  else if ch.id = "photo_share" then
    if 1 ≤ (s.users uid).photos_this_week then
      some (markComplete s uid ch.id uc ch.reward_points)
    else none
  else if ch.id = "invite_3" then
    if ch.target ≤ (s.users uid).invites_this_month then
      some (markComplete s uid ch.id uc ch.reward_points)
    else none
  else if ch.id = "team_100_miles" then
    match (s.users uid).team with
    | none => none
    | some tname =>
      if tname = "" then none
      else
        match s.teams tname with
        | none => none
        | some team =>
          if ch.target_miles ≤ team_weekly_total s today team then
            some (markComplete s uid ch.id uc ch.reward_points)
          else none
  else if ch.id = "relay_pass_baton" then
    match (s.users uid).team with
    | none => none
    | some tname =>
      if tname = "" then none
      else
        match s.teams tname with
        | none => none
        | some team =>
          if ∀ m ∈ team.members, ch.target_miles ≤ weekly_miles s today m then
            some (markComplete s uid ch.id uc ch.reward_points)
          else none
  else if ch.id = "city_explorer" then
    if ch.target_count ≤ ((s.users uid).routes_completed_month.card : Int) then
      some (markComplete s uid ch.id uc ch.reward_points)
    else none
  else none

/-- Metric lookup of the custom check: val starts at 0.0 and is replaced
when the metric tag matches one of the four known metrics. -/
def customMetricValue (today : Int) (u : User) (ch : Challenge) : ℚ :=
  if ch.metric = "steps" then (_sum_steps_for_period u ch.period today : ℚ)
  else if ch.metric = "minutes" then (_sum_minutes_for_period u ch.period today : ℚ)
  else if ch.metric = "miles" then _sum_miles_for_period u ch.period today
  else if ch.metric = "walks" then (_count_walks_for_period u ch.period today : ℚ)
  else 0

/-- The trailing custom-challenge check (main.py lines 434-444). -/
def evalCustom (today : Int) (s : AppState) (uid : String) (ch : Challenge)
    (uc : UserChallenge) : Bool × AppState :=
  if ch.custom then
    if ch.target_value ≤ customMetricValue today (s.users uid) ch then
      (true, markComplete s uid ch.id uc ch.reward_points)
    else (false, s)
  else (false, s)

/-- Embeds complete_challenge_if_eligible: refresh the record, bail out when
already completed or not joined, try the built-in chain, then the custom
check; returns (completed-now, new state). -/
def complete_challenge_if_eligible (today : Int) (s : AppState) (uid : String)
    (ch : Challenge) : Bool × AppState :=
  if (_ensure_user_challenge today s uid ch.id).1.completed
      || !(_ensure_user_challenge today s uid ch.id).1.joined then
    (false, (_ensure_user_challenge today s uid ch.id).2)
  else
    match evalBuiltin today (_ensure_user_challenge today s uid ch.id).2 uid ch
        (_ensure_user_challenge today s uid ch.id).1 with
    | some s2 => (true, s2)
    | none =>
      evalCustom today (_ensure_user_challenge today s uid ch.id).2 uid ch
        (_ensure_user_challenge today s uid ch.id).1

/-- Embeds update_challenges_progress_after_walk / _after_invite: for every
catalog and custom challenge, _ensure_user_challenge then evaluate. -/
def update_challenges_progress (today : Int) (s : AppState) (uid : String) :
    AppState :=
  (s.challenge_catalog ++ s.custom_challenges).foldl
    (fun acc ch =>
      (complete_challenge_if_eligible today
        (_ensure_user_challenge today acc uid ch.id).2 uid ch).2)
    s

/-! ## Badges, walks, routes, battles -/

def total_walk_count (u : User) : Nat := u.walk_dates.length

def total_miles_all_time (u : User) : ℚ := (dayValues u.distance_miles_log).sum

/-- Embeds check_and_award_badges (main.py lines 205-211). -/
def check_and_award_badges (s : AppState) (uid : String) : AppState :=
  let u := s.users uid
  let b0 := s.badges uid
  let b1 := if 10 ≤ total_walk_count u then insert "badge_10_walks" b0 else b0
  let b2 := if (100 : ℚ) ≤ total_miles_all_time u then insert "badge_100_miles" b1 else b1
  { s with badges := Function.update s.badges uid b2 }

/-- Bonus tiering inside award_walk: +50 if streak >= 30 elif +10 if >= 7. -/
def streakBonus (streak : Nat) : Int :=
  if 30 ≤ streak then POINT_RULES.streak_30
  else if 7 ≤ streak then POINT_RULES.streak_7
  else 0

/-- The ledger updates at the top of award_walk (main.py lines 216-219 and
line 225): append the walk event for today, add to the daily minutes, steps and
miles buckets, and bump the photo counter when a photo was shared. -/
def applyWalkToUser (today : Int) (u0 : User) (minutes steps : Int)
    (miles : ℚ) (shared_photo : Bool) : User :=
  { u0 with
    walk_dates := u0.walk_dates ++ [today]
    minutes_log := daySet u0.minutes_log today (dayGet u0.minutes_log today 0 + minutes)
    steps_log := daySet u0.steps_log today (dayGet u0.steps_log today 0 + steps)
    distance_miles_log :=
      daySet u0.distance_miles_log today (dayGet u0.distance_miles_log today 0 + miles)
    photos_this_week :=
      if shared_photo then u0.photos_this_week + 1 else u0.photos_this_week }

/-- Embeds award_walk (main.py lines 213-235).  Returns (gained, new point
total, streak, new state) matching the return of the source plus the state; the
streak is computed after the walk of today has been appended. -/
def award_walk (today : Int) (s : AppState) (uid : String) (minutes steps : Int)
    (miles : ℚ) (is_group shared_photo : Bool) : Int × Int × Nat × AppState :=
  let u1 := applyWalkToUser today (s.users uid) minutes steps miles shared_photo
  let gained := minutes * POINT_RULES.base_per_minute
    + (if is_group then POINT_RULES.group_walk_bonus else 0)
    + (if shared_photo then POINT_RULES.photo_share else 0)
    + streakBonus (calc_streak today u1.walk_dates)
  let s1 : AppState :=
    { s with users := Function.update s.users uid { u1 with points := u1.points + gained } }
  let s3 := check_and_award_badges (update_challenges_progress today s1 uid) uid
  (gained, (s3.users uid).points, calc_streak today u1.walk_dates, s3)

/-- Embeds add_route (main.py lines 583-585). -/
def add_route (now : Int) (s : AppState) (uid nm : String) (km : ℚ)
    (notes : String) : AppState :=
  let route : Route :=
    { user_id := uid, name := nm, distance_km := km, notes := notes
      created_at := now }
  let s1 : AppState := { s with routes := s.routes ++ [route] }
  let u := s1.users uid
  let u1 : User :=
    { u with routes_completed_month := insert nm u.routes_completed_month }
  { s1 with users := Function.update s1.users uid u1 }

/-- Embeds delete_route (main.py lines 590-591): keep exactly the routes
that do not match both the user id and the route name. -/
def delete_route (s : AppState) (uid nm : String) : AppState :=
  { s with routes :=
      s.routes.filter (fun r => !(r.user_id == uid && r.name == nm)) }

/-- Embeds compute_team_distance_for_range (main.py lines 560-569): 0 for an
unknown team, otherwise member distance summed over each day of the
inclusive [start, end] range. -/
def compute_team_distance_for_range (s : AppState) (team : String)
    (start_d end_d : Int) : ℚ :=
  match s.teams team with
  | none => 0
  | some t =>
    ((dateRange start_d (end_d + 1 - start_d).toNat).map
      (fun di => Finset.sum t.members
        (fun m => dayGet (s.users m).distance_miles_log di 0))).sum

/-- Winner decision of settle_battles (main.py lines 578-580): the team
with the strictly larger [start, end] total; the string "draw" on a tie. -/
def battleWinner (s : AppState) (b : Battle) : String :=
  if compute_team_distance_for_range s b.team_b b.start_date b.end_date
      < compute_team_distance_for_range s b.team_a b.start_date b.end_date
  then b.team_a
  else if compute_team_distance_for_range s b.team_a b.start_date b.end_date
      < compute_team_distance_for_range s b.team_b b.start_date b.end_date
  then b.team_b
  else "draw"

/-- Settlement of one battle (loop body of settle_battles, lines 573-580).
The source compares ISO date strings, whose lexicographic order coincides
with the ordinal order embedded here. -/
def settleOne (today : Int) (s : AppState) (b : Battle) : Battle :=
  if b.winner = none ∧ b.end_date < today then
    { b with winner := some (battleWinner s b) }
  else b

/-- Embeds settle_battles: every battle is passed through settleOne; the
loop mutates only the battle list, so each settlement reads the same
user/team state. -/
def settle_battles (today : Int) (s : AppState) : AppState :=
  { s with team_battles := s.team_battles.map (settleOne today s) }

/-! ## Specification-side streak characterization (spec section 4.3) -/

def mem_le_foldr_max (today : Int) (l : List Int) :
    ∀ x ∈ l, (today - x).toNat ≤ l.foldr (fun y acc => max (today - y).toNat acc) 0 := by
  induction l with
  | nil => simp
  | cons y ys ih =>
    intro x hx
    rcases List.mem_cons.mp hx with h | h
    · subst h; exact le_max_left _ _
    · exact (ih x h).trans (le_max_right _ _)

def gap_exists (today : Int) (l : List Int) :
    ∃ k : Nat, today - (k : Int) ∉ l := by
  refine ⟨l.foldr (fun y acc => max (today - y).toNat acc) 0 + 1, fun hmem => ?_⟩
  have h1 := mem_le_foldr_max today l _ hmem
  omega

/-- Specification-side streak (streakLength in spec 4.3): count backward
from today, requiring each successive date to be present among the event
dates; the count stops at the first gap, so it is the least k such that
today - k is not an event date. -/
def streakSpec (today : Int) (l : List Int) : Nat := Nat.find (gap_exists today l)

/-! ## Concrete states used to instantiate the theorems

Ordinal 8 is a Monday (weekday (8-1) % 7 = 0), so the week Mon-Sun is
ordinals 8..14; ordinal 10 is the Wednesday of that week. -/

/-- Empty session state: no users beyond the lazily defaulted ones, no
teams, no progress records, the built-in catalog. -/
def baseState : AppState :=
  { users := fun uid => defaultUser uid
    teams := fun _ => none
    user_challenges := fun _ _ => none
    routes := []
    team_battles := []
    challenge_catalog := defaultCatalog
    custom_challenges := []
    badges := fun _ => ∅ }

/-- The daily_5000 catalog entry. -/
def dailyCh : Challenge :=
  { id := "daily_5000", name := "Daily Step Goal"
    desc := "Hit 5,000 steps today for bonus points"
    ctype := "daily_steps", period := "daily", target := 5000
    target_miles := 0, target_count := 0, reward_points := 50
    custom := false, metric := "", target_value := 0 }

/-- The photo_share catalog entry. -/
def photoCh : Challenge :=
  { id := "photo_share", name := "Photo Challenge"
    desc := "Share a scenic walk photo this week"
    ctype := "boolean_weekly", period := "weekly", target := 1
    target_miles := 0, target_count := 0, reward_points := 20
    custom := false, metric := "", target_value := 0 }

/-- The relay_pass_baton catalog entry. -/
def relayCh : Challenge :=
  { id := "relay_pass_baton", name := "Relay Challenge"
    desc := "Each member walks 2 miles this week to pass the baton"
    ctype := "team_each_member_distance_weekly", period := "weekly"
    target := 0, target_miles := 2, target_count := 0
    reward_points := 200, custom := false, metric := "", target_value := 0 }

/-- A custom challenge with metric miles, weekly period, target 10. -/
def customCh : Challenge :=
  { id := "custom_1", name := "Weekly Miles", desc := ""
    ctype := "", period := "weekly", target := 0
    target_miles := 0, target_count := 0, reward_points := 100
    custom := true, metric := "miles", target_value := 10 }

/-- A record completed for the daily period of ordinal 20. -/
def uc_done : UserChallenge :=
  { joined := true, progress := [], completed := true
    last_reset := some (.daily 20) }

/-- A joined, not-yet-completed record current for the week of Monday 8. -/
def uc_fresh : UserChallenge :=
  { joined := true, progress := [], completed := false
    last_reset := some (.weekly 8) }

/-- A record completed during the stale week of Monday 1. -/
def uc_photo_old : UserChallenge :=
  { joined := true, progress := [], completed := true
    last_reset := some (.weekly 1) }

/-- State for the idempotence instance: martha completed daily_5000 today
(ordinal 20). -/
def s_c2 : AppState :=
  { baseState with user_challenges := fun u c =>
      if u = "martha" ∧ c = "daily_5000" then some uc_done else none }

/-- State for the rollover instance: the daily_5000 record was completed on
day 20, and 6000 steps are logged on day 21. -/
def s_c3 : AppState :=
  { baseState with
    users := fun uid =>
      if uid = "martha" then { defaultUser "martha" with steps_log := [(21, 6000)] }
      else defaultUser uid
    user_challenges := fun u c =>
      if u = "martha" ∧ c = "daily_5000" then some uc_done else none }

/-- State for the points instance: walks on the nine days before day 100,
so logging a walk on day 100 yields a 10-day streak. -/
def s_c5 : AppState :=
  { baseState with users := fun uid =>
      if uid = "martha" then
        { defaultUser "martha" with
          walk_dates := [91, 92, 93, 94, 95, 96, 97, 98, 99] }
      else defaultUser uid }

/-- A team whose member set is empty. -/
def team_empty : Team := { captain := "martha", members := ∅ }

/-- State for the empty-team relay counterexample: martha belongs to team T,
which exists and has zero members; her relay record is joined and not
completed in the current week (Monday 8). -/
def s_c1 : AppState :=
  { baseState with
    users := fun uid =>
      if uid = "martha" then { defaultUser "martha" with team := some "T" }
      else defaultUser uid
    teams := fun t => if t = "T" then some team_empty else none
    user_challenges := fun u c =>
      if u = "martha" ∧ c = "relay_pass_baton" then some uc_fresh else none }

/-- A three-member team. -/
def team_abc : Team := { captain := "a", members := {"a", "b", "c"} }

/-- State for the relay witness: members a, b, c each logged exactly 2 miles
on the Monday (ordinal 8) of the current week. -/
def s_c1w : AppState :=
  { baseState with
    users := fun uid =>
      if uid = "martha" then { defaultUser "martha" with team := some "T" }
      else if uid = "a" ∨ uid = "b" ∨ uid = "c" then
        { defaultUser uid with distance_miles_log := [(8, 2)] }
      else defaultUser uid
    teams := fun t => if t = "T" then some team_abc else none
    user_challenges := fun u c =>
      if u = "martha" ∧ c = "relay_pass_baton" then some uc_fresh else none }

/-- State for the photo-counter counterexample: the counter of martha is 1 and
her photo_share record was completed during the stale week of Monday 1;
the current day 17 lies in the week of Monday 15. -/
def s_c4 : AppState :=
  { baseState with
    users := fun uid =>
      if uid = "martha" then { defaultUser "martha" with photos_this_week := 1 }
      else defaultUser uid
    user_challenges := fun u c =>
      if u = "martha" ∧ c = "photo_share" then some uc_photo_old else none }

/-- State for the custom-challenge instance: miles 3 on Tuesday (ordinal 9)
and 7 on Saturday (ordinal 13) of the week of Monday 8, summing to 10. -/
def s_c8 : AppState :=
  { baseState with
    users := fun uid =>
      if uid = "martha" then
        { defaultUser "martha" with distance_miles_log := [(9, 3), (13, 7)] }
      else defaultUser uid
    custom_challenges := [customCh]
    user_challenges := fun u c =>
      if u = "martha" ∧ c = "custom_1" then some uc_fresh else none }

/-- State for the battle instance: member a1 of team A logged 12 miles and
member b1 of team B logged 9.5 miles on day 1, the single day of the
battle window [1, 1]. -/
def s_c7 : AppState :=
  { baseState with
    users := fun uid =>
      if uid = "a1" then { defaultUser "a1" with distance_miles_log := [(1, 12)] }
      else if uid = "b1" then
        { defaultUser "b1" with distance_miles_log := [(1, 19 / 2)] }
      else defaultUser uid
    teams := fun t =>
      if t = "A" then some { captain := "a1", members := {"a1"} }
      else if t = "B" then some { captain := "b1", members := {"b1"} }
      else none }

/-- Unsettled battle A vs B over the one-day window [1, 1]. -/
def battle_ab : Battle :=
  { team_a := "A", team_b := "B", start_date := 1, end_date := 1
    metric := "distance", reward_points := 100, winner := none }

/-- A battle whose winner is already recorded. -/
def battle_done : Battle := { battle_ab with winner := some "A" }

/-- An unsettled battle of a team against itself: totals tie exactly. -/
def battle_tie : Battle := { battle_ab with team_b := "A" }

theorem streakSpec_mem {today : Int} {l : List Int} {i : Nat}
    (h : i < streakSpec today l) : today - (i : Int) ∈ l := by
  by_contra hmem
  have := Nat.find_min' (gap_exists today l) hmem
  unfold streakSpec at h
  omega

theorem streakSpec_not_mem (today : Int) (l : List Int) :
    today - (streakSpec today l : Int) ∉ l := Nat.find_spec (gap_exists today l)

theorem streakSpec_eq_iff {today : Int} {l : List Int} {n : Nat} :
    streakSpec today l = n ↔
      (today - (n : Int) ∉ l ∧ ∀ i < n, today - (i : Int) ∈ l) := by
  unfold streakSpec
  rw [Nat.find_eq_iff]
  simp [not_not]

theorem streakSpec_nil (today : Int) : streakSpec today [] = 0 := by
  rw [streakSpec_eq_iff]; simp

theorem streakSpec_congr {today : Int} {l₁ l₂ : List Int}
    (h : ∀ x : Int, x ∈ l₁ ↔ x ∈ l₂) :
    streakSpec today l₁ = streakSpec today l₂ := by
  rw [streakSpec_eq_iff]
  exact ⟨fun hm => streakSpec_not_mem today l₂ ((h _).mp hm),
    fun i hi => (h _).mpr (streakSpec_mem hi)⟩

theorem streakSpec_cons_self (d : Int) (ds : List Int) :
    streakSpec d (d :: ds) = streakSpec (d - 1) ds + 1 := by
  rw [streakSpec_eq_iff]
  constructor
  · intro hmem
    rcases List.mem_cons.mp hmem with h | h
    · omega
    · have hne := streakSpec_not_mem (d - 1) ds
      have he : d - ((streakSpec (d - 1) ds + 1 : Nat) : Int)
          = (d - 1) - (streakSpec (d - 1) ds : Int) := by push_cast; ring
      rw [he] at h
      exact hne h
  · intro i hi
    match i with
    | 0 => simp
    | Nat.succ j =>
      have hj : j < streakSpec (d - 1) ds := by omega
      have hmem := streakSpec_mem hj
      have he : d - ((j + 1 : Nat) : Int) = (d - 1) - (j : Int) := by push_cast; ring
      rw [List.mem_cons, he]
      exact Or.inr hmem

theorem streakSpec_cons_of_lt {t d : Int} (ds : List Int) (h : t < d) :
    streakSpec t (d :: ds) = streakSpec t ds := by
  rw [streakSpec_eq_iff]
  constructor
  · intro hmem
    rcases List.mem_cons.mp hmem with h1 | h1
    · omega
    · exact streakSpec_not_mem t ds h1
  · intro i hi
    exact List.mem_cons.mpr (Or.inr (streakSpec_mem hi))

theorem streakLoop_eq (today : Int) :
    ∀ l : List Int, l.Pairwise (fun a b => b < a) →
      ∀ s : Nat, streakLoop today l s = s + streakSpec (today - (s : Int)) l := by
  intro l
  induction l with
  | nil => intro _ s; simp [streakLoop, streakSpec_nil]
  | cons d ds ih =>
    intro hp s
    have hd : ∀ x ∈ ds, x < d := (List.pairwise_cons.mp hp).1
    have hds := (List.pairwise_cons.mp hp).2
    by_cases h1 : d = today - (s : Int)
    · rw [streakLoop, if_pos h1, ih hds (s + 1), ← h1, streakSpec_cons_self]
      have he : today - ((s + 1 : Nat) : Int) = d - 1 := by push_cast; omega
      rw [he]
      omega
    · by_cases h2 : d < today - (s : Int)
      · rw [streakLoop, if_neg h1, if_pos h2]
        have h0 : streakSpec (today - (s : Int)) (d :: ds) = 0 := by
          rw [streakSpec_eq_iff]
          refine ⟨?_, fun i hi => absurd hi (by omega)⟩
          intro hmem
          rcases List.mem_cons.mp hmem with h3 | h3
          · omega
          · exact absurd (hd _ h3) (by omega)
        rw [h0]
        omega
      · rw [streakLoop, if_neg h1, if_neg h2, ih hds s,
          streakSpec_cons_of_lt ds (by omega)]

theorem calc_streak_eq_spec (today : Int) (dates : List Int) :
    calc_streak today dates = streakSpec today dates := by
  unfold calc_streak
  by_cases hnil : dates = []
  · rw [if_pos hnil, hnil, streakSpec_nil]
  · rw [if_neg hnil]
    have hsorted : (List.insertionSort (· ≥ ·) dates.dedup).Sorted (· ≥ ·) :=
      List.sorted_insertionSort (· ≥ ·) dates.dedup
    have hnodup : (List.insertionSort (· ≥ ·) dates.dedup).Nodup :=
      ((List.perm_insertionSort (· ≥ ·) dates.dedup).nodup_iff).mpr
        (List.nodup_dedup dates)
    have hpair : (List.insertionSort (· ≥ ·) dates.dedup).Pairwise
        (fun a b => b < a) :=
      (hsorted.and hnodup).imp (fun h => lt_of_le_of_ne h.1 (Ne.symm h.2))
    rw [streakLoop_eq today _ hpair 0]
    simp only [Nat.cast_zero, sub_zero, zero_add]
    exact streakSpec_congr (fun x => by
      rw [List.Perm.mem_iff (List.perm_insertionSort (· ≥ ·) dates.dedup),
        List.mem_dedup])

/-! ## Basic lemmas about the state operations -/

theorem setUC_users (s : AppState) (uid cid : String) (uc : UserChallenge) :
    (setUC s uid cid uc).users = s.users := rfl

theorem setUC_get (s : AppState) (uid cid : String) (uc : UserChallenge) :
    (setUC s uid cid uc).user_challenges uid cid = some uc := by
  simp [setUC]

theorem setUC_self {s : AppState} {uid cid : String} {uc : UserChallenge}
    (h : s.user_challenges uid cid = some uc) : setUC s uid cid uc = s := by
  have h1 : Function.update (s.user_challenges uid) cid (some uc)
      = s.user_challenges uid := by
    rw [← h]
    exact Function.update_eq_self cid (s.user_challenges uid)
  unfold setUC
  rw [h1, Function.update_eq_self]

theorem ensure_eq_setUC (today : Int) (s : AppState) (uid cid : String) :
    (_ensure_user_challenge today s uid cid).2 =
      setUC s uid cid (_ensure_user_challenge today s uid cid).1 := by
  unfold _ensure_user_challenge
  split
  · dsimp only
    split
    · rfl
    · rfl
  · rfl

theorem ensure_users (today : Int) (s : AppState) (uid cid : String) :
    (_ensure_user_challenge today s uid cid).2.users = s.users := by
  rw [ensure_eq_setUC]
  rfl

theorem ensure_no_reset {today : Int} {s : AppState} {uid cid : String}
    {uc : UserChallenge}
    (huc : s.user_challenges uid cid = some uc)
    (hkey : ∀ c, get_challenge_by_id s cid = some c →
      uc.last_reset = some (periodKeyFor c.period today)) :
    _ensure_user_challenge today s uid cid = (uc, s) := by
  unfold _ensure_user_challenge
  rw [huc]
  cases hch : get_challenge_by_id s cid with
  | none => simp only [Option.getD_some]; rw [setUC_self huc]
  | some c =>
    have hk := hkey c hch
    simp only [Option.getD_some]
    rw [if_neg (by simp [hk])]
    rw [setUC_self huc]

theorem ensure_reset {today : Int} {s : AppState} {uid cid : String}
    {uc : UserChallenge} {c : Challenge}
    (huc : s.user_challenges uid cid = some uc)
    (hch : get_challenge_by_id s cid = some c)
    (hne : uc.last_reset ≠ some (periodKeyFor c.period today)) :
    _ensure_user_challenge today s uid cid =
      (resetUC uc (periodKeyFor c.period today),
        setUC s uid cid (resetUC uc (periodKeyFor c.period today))) := by
  unfold _ensure_user_challenge
  rw [huc]
  simp only [hch, Option.getD_some]
  rw [if_pos hne]

theorem markComplete_photos (s : AppState) (uid cid : String)
    (uc : UserChallenge) (pts : Int) (v : String) :
    ((markComplete s uid cid uc pts).users v).photos_this_week
      = (s.users v).photos_this_week := by
  unfold markComplete add_points
  by_cases h : v = uid
  · subst h; simp [setUC, Function.update_same]
  · simp [setUC, Function.update_noteq h]

theorem markComplete_points (s : AppState) (uid cid : String)
    (uc : UserChallenge) (pts : Int) :
    ((markComplete s uid cid uc pts).users uid).points
      = (s.users uid).points + pts := by
  unfold markComplete add_points
  simp [setUC, Function.update_same]

theorem markComplete_get (s : AppState) (uid cid : String)
    (uc : UserChallenge) (pts : Int) :
    (markComplete s uid cid uc pts).user_challenges uid cid
      = some { uc with completed := true } := by
  unfold markComplete add_points
  simp [setUC]

theorem evalBuiltin_some {today : Int} {s : AppState} {uid : String}
    {ch : Challenge} {uc : UserChallenge} {s2 : AppState}
    (h : evalBuiltin today s uid ch uc = some s2) :
    s2 = markComplete s uid ch.id uc ch.reward_points := by
  unfold evalBuiltin at h
  repeat' split at h
  all_goals first
    | exact (Option.some.inj h).symm
    | exact absurd h (by simp)

theorem eval_photos (today : Int) (s : AppState) (uid : String)
    (ch : Challenge) (v : String) :
    (((complete_challenge_if_eligible today s uid ch).2).users v).photos_this_week
      = ((s.users v)).photos_this_week := by
  unfold complete_challenge_if_eligible
  rcases hE : _ensure_user_challenge today s uid ch.id with ⟨uc, s1⟩
  have hs1 : s1.users = s.users := by
    have h2 := ensure_users today s uid ch.id
    rw [hE] at h2
    exact h2
  dsimp only
  split
  · rw [hs1]
  · split
    · next s2 heq2 =>
      rw [evalBuiltin_some heq2, markComplete_photos, hs1]
    · unfold evalCustom
      split
      · split
        · dsimp only
          rw [markComplete_photos, hs1]
        · dsimp only
          rw [hs1]
      · dsimp only
        rw [hs1]

theorem foldl_eval_photos (today : Int) (uid v : String) :
    ∀ (l : List Challenge) (s : AppState),
      (((l.foldl (fun acc ch =>
          (complete_challenge_if_eligible today
            (_ensure_user_challenge today acc uid ch.id).2 uid ch).2) s)).users v).photos_this_week
        = ((s.users v)).photos_this_week := by
  intro l
  induction l with
  | nil => intro s; rfl
  | cons c cs ih =>
    intro s
    rw [List.foldl_cons, ih, eval_photos, ensure_users]

theorem badges_users (s : AppState) (uid : String) :
    (check_and_award_badges s uid).users = s.users := rfl

theorem update_progress_photos (today : Int) (s : AppState) (uid v : String) :
    ((update_challenges_progress today s uid).users v).photos_this_week
      = ((s.users v)).photos_this_week := by
  unfold update_challenges_progress
  exact foldl_eval_photos today uid v (s.challenge_catalog ++ s.custom_challenges) s

theorem evalBuiltin_daily (today : Int) (s : AppState) (uid : String)
    (ch : Challenge) (uc : UserChallenge) (hid : ch.id = "daily_5000") :
    evalBuiltin today s uid ch uc =
      (if ch.target ≤ dayGet (s.users uid).steps_log today 0 then
        some (markComplete s uid ch.id uc ch.reward_points) else none) := by
  unfold evalBuiltin
  rw [hid]
  rw [if_pos rfl]

theorem evalBuiltin_relay (today : Int) (s : AppState) (uid tname : String)
    (ch : Challenge) (uc : UserChallenge) (team : Team)
    (hid : ch.id = "relay_pass_baton")
    (ht : (s.users uid).team = some tname) (htn : tname ≠ "")
    (hteam : s.teams tname = some team) :
    evalBuiltin today s uid ch uc =
      (if ∀ m ∈ team.members, ch.target_miles ≤ weekly_miles s today m then
        some (markComplete s uid ch.id uc ch.reward_points) else none) := by
  unfold evalBuiltin
  rw [hid]
  rw [if_neg (by decide), if_neg (by decide), if_neg (by decide),
    if_neg (by decide), if_neg (by decide), if_pos rfl, ht]
  dsimp only
  rw [if_neg htn, hteam]

theorem evalBuiltin_none (today : Int) (s : AppState) (uid : String)
    (ch : Challenge) (uc : UserChallenge)
    (h1 : ch.id ≠ "daily_5000") (h2 : ch.id ≠ "weekend_walkathon")
    (h3 : ch.id ≠ "photo_share") (h4 : ch.id ≠ "invite_3")
    (h5 : ch.id ≠ "team_100_miles") (h6 : ch.id ≠ "relay_pass_baton")
    (h7 : ch.id ≠ "city_explorer") :
    evalBuiltin today s uid ch uc = none := by
  unfold evalBuiltin
  rw [if_neg h1, if_neg h2, if_neg h3, if_neg h4, if_neg h5, if_neg h6,
    if_neg h7]

/-! ## Claim theorems -/

/-- Claim C2: when the progress record of a (user, challenge) pair is
already marked completed in the current period (its last_reset equals the
current period key of whatever catalog entry the evaluation looks up), a
repeated evaluation returns not-completed, awards nothing, and leaves the
whole state unchanged: a challenge completes at most once per period. -/
theorem claim_C2_eval_idempotent (today : Int) (s : AppState) (uid : String)
    (ch : Challenge) (uc : UserChallenge)
    (huc : s.user_challenges uid ch.id = some uc)
    (hc : uc.completed = true)
    (hkey : ∀ c, get_challenge_by_id s ch.id = some c →
      uc.last_reset = some (periodKeyFor c.period today)) :
    complete_challenge_if_eligible today s uid ch = (false, s) := by
  unfold complete_challenge_if_eligible
  rw [ensure_no_reset huc hkey]
  simp [hc]

/-- Witness for C2 at a concrete state: the daily challenge completed on
day 20 evaluates to (false, unchanged state) on day 20. -/
theorem claim_C2_witness :
    complete_challenge_if_eligible 20 s_c2 "martha" dailyCh = (false, s_c2) := by
  apply claim_C2_eval_idempotent 20 s_c2 "martha" dailyCh uc_done rfl rfl
  intro c hcc
  rw [show get_challenge_by_id s_c2 dailyCh.id = some dailyCh from rfl] at hcc
  cases hcc
  rfl

/-- Claim C3: whenever the current period key of the challenge differs from
the last_reset of the record, refreshing resets completed to false, clears the
progress dict and stamps last_reset with the current key; in particular a
daily-steps record completed on a day is reset on the next day and
re-evaluation succeeds exactly when the steps of day today + 1 meet the
target. -/
theorem claim_C3_period_rollover :
    (∀ (today : Int) (s : AppState) (uid cid : String) (ch : Challenge)
        (uc : UserChallenge),
      get_challenge_by_id s cid = some ch →
      s.user_challenges uid cid = some uc →
      uc.last_reset ≠ some (periodKeyFor ch.period today) →
      (_ensure_user_challenge today s uid cid).1
          = resetUC uc (periodKeyFor ch.period today)
        ∧ (_ensure_user_challenge today s uid cid).2.user_challenges uid cid
            = some (resetUC uc (periodKeyFor ch.period today)))
    ∧ (∀ (today : Int) (s : AppState) (uid : String) (ch : Challenge)
        (uc : UserChallenge),
      ch.id = "daily_5000" → ch.period = "daily" → ch.custom = false →
      get_challenge_by_id s ch.id = some ch →
      s.user_challenges uid ch.id = some uc →
      uc.joined = true →
      uc.last_reset = some (.daily today) →
      ((complete_challenge_if_eligible (today + 1) s uid ch).1 = true ↔
        ch.target ≤ dayGet (s.users uid).steps_log (today + 1) 0)) := by
  constructor
  · intro today s uid cid ch uc hch huc hne
    rw [ensure_reset huc hch hne]
    exact ⟨rfl, setUC_get s uid cid _⟩
  · intro today s uid ch uc hid hp hcu hch huc hj hl
    have hkey : periodKeyFor ch.period (today + 1) = .daily (today + 1) := by
      rw [hp]
      simp [periodKeyFor]
    have hne : uc.last_reset ≠ some (periodKeyFor ch.period (today + 1)) := by
      rw [hl, hkey]
      intro hx
      simp only [Option.some.injEq, PeriodKey.daily.injEq] at hx
      omega
    unfold complete_challenge_if_eligible
    rw [ensure_reset huc hch hne]
    dsimp only
    rw [if_neg (by simp [resetUC, hj])]
    rw [evalBuiltin_daily _ _ _ _ _ hid, setUC_users]
    by_cases hcond : ch.target ≤ dayGet (s.users uid).steps_log (today + 1) 0
    · rw [if_pos hcond]
      simp [hcond]
    · rw [if_neg hcond]
      unfold evalCustom
      rw [hcu]
      simp [hcond]

/-- Witness for C3 at a concrete state: on day 21, the record completed for
day 20 is reset, and the evaluation then completes because 6000 steps were
logged on day 21. -/
theorem claim_C3_witness :
    (_ensure_user_challenge 21 s_c3 "martha" "daily_5000").1
        = resetUC uc_done (periodKeyFor dailyCh.period 21)
      ∧ (complete_challenge_if_eligible 21 s_c3 "martha" dailyCh).1 = true := by
  constructor
  · exact (claim_C3_period_rollover.1 21 s_c3 "martha" "daily_5000" dailyCh
      uc_done rfl rfl (by decide)).1
  · have h := claim_C3_period_rollover.2 20 s_c3 "martha" dailyCh uc_done
      rfl rfl rfl rfl rfl rfl rfl
    exact h.mpr (by decide)

/-- Claim C5: the points gained for a walk equal minutes x 1, plus 20 for a
group walk, plus 5 for a shared photo, plus exactly one streak bonus (50
when the streak including the walk of today is at least 30, else 10 when at
least 7, else 0); a 30-minute group walk with photo at a 10-day streak
gains 30 + 20 + 5 + 10 = 65. -/
theorem claim_C5_award_walk_points :
    (∀ (today : Int) (s : AppState) (uid : String) (minutes steps : Int)
        (miles : ℚ) (g p : Bool),
      (award_walk today s uid minutes steps miles g p).1 =
        minutes * 1 + (if g then 20 else 0) + (if p then 5 else 0)
          + streakBonus (calc_streak today ((s.users uid).walk_dates ++ [today])))
    ∧ (award_walk 100 s_c5 "martha" 30 3500 (3 / 2) true true).1 = 65
    ∧ calc_streak 100 ((s_c5.users "martha").walk_dates ++ [100]) = 10 := by
  refine ⟨fun _ _ _ _ _ _ _ _ => rfl, by decide, by decide⟩

/-- Claim C6: calc_streak agrees with the backward-counting specification
streakSpec on every event list (count today, today-1, ... while present,
stop at the first gap); the empty list gives 0, consecutive dates today,
today-1, today-2 give 3, and the gapped pair today, today-2 gives 1. -/
theorem claim_C6_streak :
    (∀ (today : Int) (dates : List Int),
      calc_streak today dates = streakSpec today dates)
    ∧ (∀ today : Int, calc_streak today [] = 0)
    ∧ (∀ today : Int, calc_streak today [today, today - 1, today - 2] = 3)
    ∧ (∀ today : Int, calc_streak today [today, today - 2] = 1) := by
  refine ⟨calc_streak_eq_spec, fun today => rfl, fun today => ?_, fun today => ?_⟩
  · rw [calc_streak_eq_spec, streakSpec_eq_iff]
    constructor
    · intro hmem
      simp only [List.mem_cons, List.not_mem_nil, or_false] at hmem
      omega
    · intro i hi
      interval_cases i <;> (simp only [List.mem_cons, List.not_mem_nil, or_false]; omega)
  · rw [calc_streak_eq_spec, streakSpec_eq_iff]
    constructor
    · intro hmem
      simp only [List.mem_cons, List.not_mem_nil, or_false] at hmem
      omega
    · intro i hi
      interval_cases i
      simp only [List.mem_cons, List.not_mem_nil, or_false]
      omega

/-- Claim C7: a battle is settled only when today is strictly after its end
date and no winner is recorded; settlement then records the team with the
strictly larger inclusive [start, end] distance total, or the string
"draw" on an exact tie; a battle with a recorded winner is never changed,
so settlement is idempotent; settle_battles applies this to every battle. -/
theorem claim_C7_settlement :
    (∀ (today : Int) (s : AppState) (b : Battle) (w : String),
      b.winner = some w → settleOne today s b = b)
    ∧ (∀ (today : Int) (s : AppState) (b : Battle),
      b.winner = none → today ≤ b.end_date → settleOne today s b = b)
    ∧ (∀ (today : Int) (s : AppState) (b : Battle),
      b.winner = none → b.end_date < today →
      settleOne today s b = { b with winner := some (battleWinner s b) })
    ∧ (∀ (today today2 : Int) (s s2 : AppState) (b : Battle),
      b.winner = none → b.end_date < today →
      settleOne today2 s2 (settleOne today s b) = settleOne today s b)
    ∧ (∀ (today : Int) (s : AppState),
      (settle_battles today s).team_battles
        = s.team_battles.map (settleOne today s)) := by
  have hsome : ∀ (today : Int) (s : AppState) (b : Battle) (w : String),
      b.winner = some w → settleOne today s b = b := by
    intro today s b w hw
    unfold settleOne
    rw [if_neg (by simp [hw])]
  have hpos : ∀ (today : Int) (s : AppState) (b : Battle),
      b.winner = none → b.end_date < today →
      settleOne today s b = { b with winner := some (battleWinner s b) } := by
    intro today s b hw hd
    unfold settleOne
    rw [if_pos ⟨hw, hd⟩]
  refine ⟨hsome, ?_, hpos, ?_, fun _ _ => rfl⟩
  · intro today s b hw hle
    unfold settleOne
    rw [if_neg ?_]
    intro hx
    omega
  · intro today today2 s s2 b hw hd
    rw [hpos today s b hw hd]
    exact hsome today2 s2 _ (battleWinner s b) rfl

/-- Witness for C7 at concrete states: team A (12 miles) beats team B (9.5
miles); a self-battle ties and records "draw"; an already-settled battle
stays unchanged; a battle whose window has not elapsed is not settled. -/
theorem claim_C7_witness :
    (settleOne 5 s_c7 battle_ab).winner = some "A"
      ∧ (settleOne 5 s_c7 battle_tie).winner = some "draw"
      ∧ settleOne 5 s_c7 battle_done = battle_done
      ∧ settleOne 1 s_c7 battle_ab = battle_ab := by
  have hA : compute_team_distance_for_range s_c7 "A" 1 1 = 12 := by
    unfold compute_team_distance_for_range
    simp only [show s_c7.teams "A" = some ⟨"a1", {"a1"}⟩ from rfl]
    norm_num [show dateRange 1 ((1 : Int) + 1 - 1).toNat = [1] from rfl,
      show dateRange 1 1 = [1] from rfl, Finset.sum_singleton,
      show dayGet (s_c7.users "a1").distance_miles_log 1 (0 : ℚ) = 12 from rfl]
  have hB : compute_team_distance_for_range s_c7 "B" 1 1 = 19 / 2 := by
    unfold compute_team_distance_for_range
    simp only [show s_c7.teams "B" = some ⟨"b1", {"b1"}⟩ from rfl]
    norm_num [show dateRange 1 ((1 : Int) + 1 - 1).toNat = [1] from rfl,
      show dateRange 1 1 = [1] from rfl, Finset.sum_singleton,
      show dayGet (s_c7.users "b1").distance_miles_log 1 (0 : ℚ) = 19 / 2 from rfl]
  refine ⟨?_, ?_, ?_, ?_⟩
  · rw [claim_C7_settlement.2.2.1 5 s_c7 battle_ab rfl (by decide)]
    have hw : battleWinner s_c7 battle_ab = "A" := by
      unfold battleWinner battle_ab
      dsimp only
      rw [hA, hB, if_pos (by norm_num)]
    rw [hw]
  · rw [claim_C7_settlement.2.2.1 5 s_c7 battle_tie rfl (by decide)]
    have hw : battleWinner s_c7 battle_tie = "draw" := by
      unfold battleWinner battle_tie battle_ab
      dsimp only
      rw [hA, if_neg (by norm_num), if_neg (by norm_num)]
    rw [hw]
  · exact claim_C7_settlement.1 5 s_c7 battle_done "A" rfl
  · exact claim_C7_settlement.2.1 1 s_c7 battle_ab rfl (by decide)

/-- Claim C9: the weekend period key is the Saturday of the current or most
recently started weekend: for Monday through Saturday (weekday at most 5)
it is the current or upcoming Saturday, at distance 5 - weekday ahead; for
Sunday (weekday 6) it is yesterday; and every unrecognized period tag maps,
without error, to the constant all-time key for every date. -/
theorem claim_C9_period_key :
    (∀ today : Int, weekdayOf today ≤ 5 →
      periodKeyFor "weekend" today = .weekend (today + (5 - weekdayOf today))
        ∧ weekdayOf (today + (5 - weekdayOf today)) = 5
        ∧ today ≤ today + (5 - weekdayOf today)
        ∧ today + (5 - weekdayOf today) ≤ today + 5)
    ∧ (∀ today : Int, weekdayOf today = 6 →
      periodKeyFor "weekend" today = .weekend (today - 1)
        ∧ weekdayOf (today - 1) = 5)
    ∧ (∀ p : String, p ≠ "daily" → p ≠ "weekly" → p ≠ "weekend" →
        p ≠ "monthly" → ∀ today : Int, periodKeyFor p today = .alltime) := by
  refine ⟨?_, ?_, ?_⟩
  · intro today h
    have hsat : saturdayOf today = today + (5 - weekdayOf today) := by
      unfold saturdayOf
      rw [if_pos h]
    refine ⟨?_, ?_, ?_, ?_⟩
    · unfold periodKeyFor
      rw [if_neg (by decide), if_neg (by decide), if_pos rfl, hsat]
    · unfold weekdayOf at h ⊢
      omega
    · unfold weekdayOf at h ⊢
      omega
    · unfold weekdayOf at h ⊢
      omega
  · intro today h
    have hsat : saturdayOf today = today - 1 := by
      unfold saturdayOf
      rw [if_neg (by rw [h]; decide), h]
      omega
    refine ⟨?_, ?_⟩
    · unfold periodKeyFor
      rw [if_neg (by decide), if_neg (by decide), if_pos rfl, hsat]
    · unfold weekdayOf at h ⊢
      omega
  · intro p h1 h2 h3 h4 today
    unfold periodKeyFor
    rw [if_neg h1, if_neg h2, if_neg h3, if_neg h4]

/-- Witness for C9 at concrete dates: ordinal 738886 is a Monday, so its
weekend key is Saturday 738891; ordinal 738885 is a Sunday, so its weekend
key is the previous day 738884; the tag "fortnight" maps to the all-time
key. -/
theorem claim_C9_witness :
    periodKeyFor "weekend" 738886 = .weekend 738891
      ∧ periodKeyFor "weekend" 738885 = .weekend 738884
      ∧ periodKeyFor "fortnight" 738886 = .alltime := by
  refine ⟨?_, ?_, ?_⟩
  · exact ((claim_C9_period_key.1 738886 (by decide)).1).trans (by decide)
  · exact ((claim_C9_period_key.2.1 738885 (by decide)).1).trans (by decide)
  · exact claim_C9_period_key.2.2 "fortnight" (by decide) (by decide)
      (by decide) (by decide) 738886

/-- Claim C10: deleting a route removes exactly the stored route records
matching both the user id and the name, and changes nothing else: every
other state component, and in particular the per-user monthly
distinct-route name set, point balance, and all challenge progress
records, are untouched. -/
theorem claim_C10_delete_route_frame :
    ∀ (s : AppState) (uid nm : String),
      (∀ r : Route, r ∈ (delete_route s uid nm).routes ↔
        r ∈ s.routes ∧ ¬(r.user_id = uid ∧ r.name = nm))
      ∧ (delete_route s uid nm).users = s.users
      ∧ (delete_route s uid nm).teams = s.teams
      ∧ (delete_route s uid nm).user_challenges = s.user_challenges
      ∧ (delete_route s uid nm).team_battles = s.team_battles
      ∧ (delete_route s uid nm).challenge_catalog = s.challenge_catalog
      ∧ (delete_route s uid nm).custom_challenges = s.custom_challenges
      ∧ (delete_route s uid nm).badges = s.badges
      ∧ ((delete_route s uid nm).users uid).routes_completed_month
          = (s.users uid).routes_completed_month
      ∧ ((delete_route s uid nm).users uid).points = (s.users uid).points := by
  intro s uid nm
  refine ⟨?_, rfl, rfl, rfl, rfl, rfl, rfl, rfl, rfl, rfl⟩
  intro r
  unfold delete_route
  simp only [List.mem_filter, Bool.not_eq_true', Bool.and_eq_false_iff,
    beq_eq_false_iff_ne, ne_eq, not_and]
  tauto

/-- Claim C1 counterexample: in s_c1, martha belongs to the existing team T
whose member set is empty, her relay record is joined and not completed in
the current week, and evaluation nevertheless completes the relay
challenge and awards its 200 reward points: the per-member loop over zero
members is vacuously satisfied, so a zero-member team does complete,
contradicting the claim that it never completes. -/
theorem claim_C1_counterexample :
    team_empty.members = ∅
      ∧ (s_c1.users "martha").team = some "T"
      ∧ s_c1.teams "T" = some team_empty
      ∧ uc_fresh.joined = true
      ∧ uc_fresh.completed = false
      ∧ (complete_challenge_if_eligible 10 s_c1 "martha" relayCh).1 = true
      ∧ ((complete_challenge_if_eligible 10 s_c1 "martha" relayCh).2.users
          "martha").points = (s_c1.users "martha").points + 200 := by
  decide

/-- Claim C1 amended: for a user who has joined the relay challenge, is not
completed in the current period, and belongs to an existing team with a
non-empty name: evaluation marks the challenge completed and awards its
reward points exactly when every member of the team individually has at
least the per-member target miles summed over the current ISO week; for a
team with zero members this condition holds vacuously, so such a team
completes (the code does not require at least one member). -/
theorem claim_C1_relay_amended (today : Int) (s : AppState) (uid tname : String)
    (team : Team) (uc : UserChallenge) (ch : Challenge)
    (hid : ch.id = "relay_pass_baton")
    (hcust : ch.custom = false)
    (hch : get_challenge_by_id s ch.id = some ch)
    (huc : s.user_challenges uid ch.id = some uc)
    (hj : uc.joined = true) (hc : uc.completed = false)
    (hl : uc.last_reset = some (periodKeyFor ch.period today))
    (ht : (s.users uid).team = some tname) (htn : tname ≠ "")
    (hteam : s.teams tname = some team) :
    ((complete_challenge_if_eligible today s uid ch).1 = true ↔
      ∀ m ∈ team.members, ch.target_miles ≤ weekly_miles s today m)
    ∧ ((complete_challenge_if_eligible today s uid ch).1 = true →
      ((complete_challenge_if_eligible today s uid ch).2.users uid).points
        = (s.users uid).points + ch.reward_points) := by
  have hE : _ensure_user_challenge today s uid ch.id = (uc, s) :=
    ensure_no_reset huc (fun c hcc => by rw [hch] at hcc; cases hcc; exact hl)
  unfold complete_challenge_if_eligible
  rw [hE]
  dsimp only
  rw [if_neg (by simp [hc, hj])]
  rw [evalBuiltin_relay today s uid tname ch uc team hid ht htn hteam]
  by_cases hok : ∀ m ∈ team.members, ch.target_miles ≤ weekly_miles s today m
  · rw [if_pos hok]
    dsimp only
    exact ⟨Iff.intro (fun _ => hok) (fun _ => rfl),
      fun _ => by rw [markComplete_points]⟩
  · rw [if_neg hok]
    dsimp only
    unfold evalCustom
    rw [hcust, if_neg Bool.false_ne_true]
    dsimp only
    exact ⟨by simp [hok], by simp⟩

/-- Witness for the amended C1: a three-member team, each member at exactly
the 2-mile weekly target, completes the relay challenge. -/
theorem claim_C1_relay_witness :
    (complete_challenge_if_eligible 10 s_c1w "martha" relayCh).1 = true := by
  have h := claim_C1_relay_amended 10 s_c1w "martha" "T" team_abc uc_fresh
    relayCh rfl rfl rfl rfl rfl rfl rfl rfl (by decide) rfl
  apply h.1.mpr
  intro m hm
  have hm3 : m = "a" ∨ m = "b" ∨ m = "c" := by
    simpa [team_abc, Finset.mem_insert, Finset.mem_singleton] using hm
  rcases hm3 with h | h | h
  · subst h
    show (2 : ℚ) ≤ ([(2 : ℚ), 0, 0, 0, 0, 0, 0]).sum
    norm_num
  · subst h
    show (2 : ℚ) ≤ ([(2 : ℚ), 0, 0, 0, 0, 0, 0]).sum
    norm_num
  · subst h
    show (2 : ℚ) ≤ ([(2 : ℚ), 0, 0, 0, 0, 0, 0]).sum
    norm_num

/-- Claim C4 counterexample: on day 17 (week of Monday 15) evaluating the
photo challenge detects the stale period key (week of Monday 1), resets
and re-completes the record, yet the photo counter is still 1: the
rollover clears only the per-challenge progress dict and completed flag,
not the per-user photo-share counter claimed to be cleared. -/
theorem claim_C4_counterexample :
    uc_photo_old.last_reset = some (.weekly 1)
      ∧ periodKeyFor photoCh.period 17 = .weekly 15
      ∧ (complete_challenge_if_eligible 17 s_c4 "martha" photoCh).2.user_challenges
          "martha" "photo_share"
        = some { joined := true, progress := [], completed := true, last_reset := some (.weekly 15) }
      ∧ ((complete_challenge_if_eligible 17 s_c4 "martha" photoCh).2.users
          "martha").photos_this_week = 1
      ∧ (complete_challenge_if_eligible 17 s_c4 "martha" photoCh).1 = true := by
  decide

/-- Claim C4 amended: the per-user photo-share counter is incremented
exactly when a walk is logged with a shared photo; it is never reset by
any code path: the record refresh (the period-rollover logic) leaves every
user record untouched, and challenge evaluation preserves each stored
photo counter. -/
theorem claim_C4_photo_counter :
    (∀ (today : Int) (s : AppState) (uid : String) (minutes steps : Int)
        (miles : ℚ) (g p : Bool) (v : String),
      (((award_walk today s uid minutes steps miles g p).2.2.2).users v).photos_this_week
        = (if v = uid ∧ p = true then (s.users v).photos_this_week + 1
           else (s.users v).photos_this_week))
    ∧ (∀ (today : Int) (s : AppState) (uid cid v : String),
      (_ensure_user_challenge today s uid cid).2.users v = s.users v)
    ∧ (∀ (today : Int) (s : AppState) (uid : String) (ch : Challenge) (v : String),
      (((complete_challenge_if_eligible today s uid ch).2).users v).photos_this_week
        = (s.users v).photos_this_week) := by
  refine ⟨?_, ?_, eval_photos⟩
  · intro today s uid minutes steps miles g p v
    unfold award_walk
    dsimp only
    rw [badges_users, update_progress_photos]
    dsimp only
    by_cases hv : v = uid
    · subst hv
      rw [Function.update_same]
      by_cases hp : p = true
      · simp [applyWalkToUser, hp]
      · simp [applyWalkToUser, hp]
    · rw [Function.update_noteq hv]
      simp [hv]
  · intro today s uid cid v
    rw [ensure_users]

/-- Claim C8: a joined, not-yet-completed custom challenge with metric
miles, period weekly and target 10 (its id, of the shape custom_<ts>,
matches no built-in id) completes exactly when the logged miles of the user
summed over the seven days of the current ISO week reach 10; only that
weekly sum matters, not which days within the week carry the miles. -/
theorem claim_C8_custom_weekly_miles (today : Int) (s : AppState) (uid : String)
    (ch : Challenge) (uc : UserChallenge)
    (hcust : ch.custom = true) (hm : ch.metric = "miles")
    (hp : ch.period = "weekly") (htv : ch.target_value = 10)
    (h1 : ch.id ≠ "daily_5000") (h2 : ch.id ≠ "weekend_walkathon")
    (h3 : ch.id ≠ "photo_share") (h4 : ch.id ≠ "invite_3")
    (h5 : ch.id ≠ "team_100_miles") (h6 : ch.id ≠ "relay_pass_baton")
    (h7 : ch.id ≠ "city_explorer")
    (hch : get_challenge_by_id s ch.id = some ch)
    (huc : s.user_challenges uid ch.id = some uc)
    (hj : uc.joined = true) (hc : uc.completed = false)
    (hl : uc.last_reset = some (periodKeyFor ch.period today)) :
    (complete_challenge_if_eligible today s uid ch).1 = true ↔
      10 ≤ ((dateRange (isoMonday today) 7).map
        (fun d => dayGet (s.users uid).distance_miles_log d 0)).sum := by
  have hE : _ensure_user_challenge today s uid ch.id = (uc, s) :=
    ensure_no_reset huc (fun c hcc => by rw [hch] at hcc; cases hcc; exact hl)
  unfold complete_challenge_if_eligible
  rw [hE]
  dsimp only
  rw [if_neg (by simp [hc, hj])]
  rw [evalBuiltin_none today s uid ch uc h1 h2 h3 h4 h5 h6 h7]
  dsimp only
  unfold evalCustom
  rw [hcust, if_pos rfl]
  have hval : customMetricValue today (s.users uid) ch
      = _sum_miles_for_period (s.users uid) ch.period today := by
    unfold customMetricValue
    rw [hm, if_neg (by decide), if_neg (by decide), if_pos rfl]
  have hsum : _sum_miles_for_period (s.users uid) ch.period today
      = ((dateRange (isoMonday today) 7).map
          (fun d => dayGet (s.users uid).distance_miles_log d 0)).sum := by
    unfold _sum_miles_for_period _dates_for_period
    rw [hp, if_neg (by decide), if_pos rfl]
  rw [hval, hsum, htv]
  by_cases hcond : (10 : ℚ) ≤ ((dateRange (isoMonday today) 7).map
      (fun d => dayGet (s.users uid).distance_miles_log d 0)).sum
  · rw [if_pos hcond]
    simp [hcond]
  · rw [if_neg hcond]
    simp [hcond]

/-- Witness for C8: miles 3 on Tuesday and 7 on Saturday of the current
week sum to 10, so the custom weekly-miles challenge completes. -/
theorem claim_C8_witness :
    (complete_challenge_if_eligible 10 s_c8 "martha" customCh).1 = true := by
  have h := claim_C8_custom_weekly_miles 10 s_c8 "martha" customCh uc_fresh
    rfl rfl rfl rfl (by decide) (by decide) (by decide) (by decide)
    (by decide) (by decide) (by decide) rfl rfl rfl rfl rfl
  apply h.mpr
  show (10 : ℚ) ≤ ([(0 : ℚ), 3, 0, 0, 0, 7, 0]).sum
  norm_num

end WalkingBuddies
